import Mathlib

/-!
Shallow embedding of the go-gateway resilience core
(src/main.go and src/unnamed/part_000) for claim verification.

The gateway wires, per route: a token-bucket rate limiter
(`golang.org/x/time/rate`, configured `rate.NewLimiter(10, 20)`), a circuit
breaker (`sony/gobreaker`, with the `ReadyToTrip` predicate from
src/main.go), and the `proxyRequest` handler that forwards the request and
classifies outcomes. The limiter's and breaker's internal loops live in
external libraries, so they are modelled from the spec (sections 4.1 and
4.2); everything in `proxyRequest` and `RateLimterMiddleware` is translated
directly from src/main.go.

Timestamps are represented by passing the elapsed time since the previous
call explicitly; token counts are rationals (the libraries use floats, but
every constant in play is integral so no rounding behaviour is lost).
-/

namespace GoGateway

/-- Modelled from the spec: the token-bucket limiter of
`golang.org/x/time/rate` (not under src/); spec section 4.1 gives the
algorithm: on each call, `tokens = min(capacity, tokens + elapsed *
refillRatePerSecond)`; if `tokens >= 1`, subtract 1 and allow, else reject.
`lastRefill` is replaced by passing `elapsed` explicitly. -/
structure TokenBucketLimiter where
  capacity : ℚ
  refillRatePerSecond : ℚ
  tokens : ℚ
deriving Repr, DecidableEq

/-- Modelled from the spec: the refill step of `Allow()` (spec section 4.1). -/
def TokenBucketLimiter.refill (l : TokenBucketLimiter) (elapsed : ℚ) :
    TokenBucketLimiter :=
  { l with tokens := min l.capacity (l.tokens + elapsed * l.refillRatePerSecond) }

/-- Modelled from the spec: `Allow()` of the limiter (spec section 4.1):
refill, then consume one token when at least one is available. Returns the
decision and the updated limiter. -/
def TokenBucketLimiter.Allow (l : TokenBucketLimiter) (elapsed : ℚ) :
    Bool × TokenBucketLimiter :=
  let r := l.refill elapsed
  if 1 ≤ r.tokens then (true, { r with tokens := r.tokens - 1 })
  else (false, r)

/-- Runs a sequence of `Allow()` calls, one per entry of `es` (each entry is
the elapsed time since the previous call), returning the list of decisions
and the final limiter state. -/
def allowRun (l : TokenBucketLimiter) : List ℚ → List Bool × TokenBucketLimiter
  | [] => ([], l)
  | e :: es =>
    let s := l.Allow e
    let rest := allowRun s.2 es
    (s.1 :: rest.1, rest.2)

/-- The limiter configured per route in src/main.go line 165:
`rate.NewLimiter(10, 20)`, i.e. capacity 20, refill 10 tokens per second,
starting full. -/
def routeLimiter : TokenBucketLimiter := ⟨20, 10, 20⟩

/-- The data-model invariant of the limiter (spec section 3):
`0 ≤ tokens ≤ capacity`. -/
def TokenBucketLimiter.Inv (l : TokenBucketLimiter) : Prop :=
  0 ≤ l.tokens ∧ l.tokens ≤ l.capacity

instance (l : TokenBucketLimiter) : Decidable l.Inv := by
  unfold TokenBucketLimiter.Inv; infer_instance

/-- The state set of the circuit breaker (spec section 4.2 / gobreaker). -/
inductive CBState
  | Closed
  | Open
  | HalfOpen
deriving Repr, DecidableEq

/-- The count record kept by the breaker within a generation
(gobreaker `Counts`; spec section 3). -/
structure Counts where
  requests : Nat
  totalSuccesses : Nat
  totalFailures : Nat
  consecutiveSuccesses : Nat
  consecutiveFailures : Nat
deriving Repr, DecidableEq

/-- A cleared count record (all zero), installed on every generation change. -/
def Counts.clear : Counts := ⟨0, 0, 0, 0, 0⟩

/-- Count update on a reported failure (spec section 4.2): increment
`totalFailures` and `consecutiveFailures`, reset `consecutiveSuccesses`. -/
def Counts.onFailure (c : Counts) : Counts :=
  { c with
    totalFailures := c.totalFailures + 1
    consecutiveFailures := c.consecutiveFailures + 1
    consecutiveSuccesses := 0 }

/-- The trip predicate installed in src/main.go lines 154-156 (identical in
src/unnamed/part_000 lines 107-109): `counts.ConsecutiveFailures > 5`. -/
def ReadyToTrip (c : Counts) : Bool := c.consecutiveFailures > 5

/-- Modelled from the spec: breaker state as kept by gobreaker (not under
src/); spec section 3 gives `{state, generation, counts}`. `openedAt` is
dropped: the claims settled here exercise only count updates and the trip
transition, not the open-timeout clock. -/
structure CircuitBreaker where
  state : CBState
  generation : Nat
  counts : Counts
deriving Repr, DecidableEq

/-- The breaker as freshly created by `gobreaker.NewCircuitBreaker`:
Closed, generation 0, zero counts. -/
def newCircuitBreaker : CircuitBreaker := ⟨CBState.Closed, 0, Counts.clear⟩

/-- Modelled from the spec: what the breaker does when the wrapped operation
reports a failure (spec section 4.2). In Closed, counts are updated first
and the trip predicate `ReadyToTrip` (from src) is evaluated on the updated
counts; a trip starts a new generation with cleared counts. In HalfOpen any
failure reopens. In Open no operation is dispatched, so a report is a stale
completion and is discarded. -/
def CircuitBreaker.reportFailure (cb : CircuitBreaker) : CircuitBreaker :=
  match cb.state with
  | CBState.Closed =>
    let c := cb.counts.onFailure
    if ReadyToTrip c then ⟨CBState.Open, cb.generation + 1, Counts.clear⟩
    else { cb with counts := c }
  | CBState.Open => cb
  | CBState.HalfOpen => ⟨CBState.Open, cb.generation + 1, Counts.clear⟩

/-- Applies `n` consecutive reported failures to a breaker. -/
def failN : Nat → CircuitBreaker → CircuitBreaker
  | 0, cb => cb
  | n + 1, cb => failN n cb.reportFailure

/-!
The `proxyRequest` handler (src/main.go lines 75-127, identical control
flow in src/unnamed/part_000 lines 37-92). The outside world's behaviour
for one request is captured by `UpstreamBehavior` (what `http.NewRequest`
and `client.Do` / `io.Copy` return) plus two flags in `Env`: whether
`url.Parse(serviceURL)` succeeds and whether the breaker rejects the call
without dispatching it. Everything the handler does to the client
connection is recorded as an ordered list of `WriteAction`s, and every
`sendLogToLoki` call as an event message.
-/

/-- A single write to the client connection performed by the handler. -/
inductive WriteAction
  | header (k v : String)
  | status (code : Nat)
  | bodyChunk
  | json (code : Nat) (body : List (String × String))
deriving Repr, DecidableEq

/-- What the outbound call does, as seen by the closure passed to
`cb.Execute` in src/main.go lines 85-120: `http.NewRequest` may fail,
`client.Do` may fail (connection refused, DNS failure, timeout), or a
response arrives with a status code, a header map (each key with its value
list) and a flag saying whether `io.Copy` of the body succeeds. -/
inductive UpstreamBehavior
  | newRequestError
  | transportError
  | response (statusCode : Nat) (headers : List (String × List String)) (copyOk : Bool)
deriving Repr, DecidableEq

/-- Environment of one `proxyRequest` invocation: whether
`url.Parse(serviceURL)` succeeds, whether the breaker is rejecting calls
(Open state: `cb.Execute` returns its open-state error without running the
operation), and the upstream behaviour if the operation runs. -/
structure Env where
  parseOk : Bool
  breakerOpen : Bool
  upstream : UpstreamBehavior
deriving Repr, DecidableEq

/-- Result of the closure passed to `cb.Execute`: whether it panicked,
the error value it returned to the breaker (`none` = success), the writes
it performed on the client connection, and the Loki events it sent. -/
structure OpOutcome where
  panicked : Bool
  err : Option String
  writes : List WriteAction
  events : List String
deriving Repr, DecidableEq

/-- The response-header copy loop of src/main.go lines 101-103:
`for k, v := range resp.Header { c.Header(k, v[0]) }`. Each key is written
with only the first element of its value list; `v[0]` on an empty value
list is an out-of-range panic (second component true). -/
def copyHeaders : List (String × List String) → List WriteAction × Bool
  | [] => ([], false)
  | (_, []) :: _ => ([], true)
  | (k, v :: _) :: rest =>
    let (ws, p) := copyHeaders rest
    (WriteAction.header k v :: ws, p)

/-- The closure passed to `cb.Execute` (src/main.go lines 85-120).
`http.NewRequest` failure and `client.Do` failure each send one Loki event
and return a distinct error to the breaker. A received response has its
headers copied (first value only), its status code written, and its body
streamed with `io.Copy`; a copy error sends an event and returns an error,
otherwise a success event is sent and `nil` is returned. (gobreaker would
additionally count a recovered panic as a failure before re-panicking; the
panicked case records only the writes and events performed before it.) -/
def wrappedOperation : UpstreamBehavior → OpOutcome
  | UpstreamBehavior.newRequestError =>
    ⟨false, some "Error creating request", [], ["Error creating request"]⟩
  | UpstreamBehavior.transportError =>
    ⟨false, some "Error sending request", [], ["Error sending request"]⟩
  | UpstreamBehavior.response statusCode headers copyOk =>
    let cp := copyHeaders headers
    if cp.2 then ⟨true, none, cp.1, []⟩
    else if copyOk then
      ⟨false, none, cp.1 ++ [WriteAction.status statusCode, WriteAction.bodyChunk],
        ["Proxy request successful"]⟩
    else
      ⟨false, some "Error copying response body",
        cp.1 ++ [WriteAction.status statusCode, WriteAction.bodyChunk],
        ["Error copying response body"]⟩

/-- Result of one `proxyRequest` invocation. `opReport` is what reached the
breaker's counting: `none` when the operation was never dispatched (breaker
open, or the panic on an unparseable URL), `some none` when the operation
reported success, `some (some msg)` when it reported failure `msg`. -/
structure ProxyResult where
  panicked : Bool
  opReport : Option (Option String)
  writes : List WriteAction
  events : List String
deriving Repr, DecidableEq

/-- The `proxyRequest` handler, src/main.go lines 75-127. Note the source
order: `url.Parse` is followed by `log.Print("Proxy URL: ",
proxyUrl.String()+c.Param("rest"))` BEFORE the `err != nil` check, and
`url.Parse` returns a nil pointer on error, so an unparseable target URL
panics in the log statement and the 500 Invalid-target-URL branch (lines
79-83) is unreachable. When `cb.Execute` returns an error - the operation
failed or the breaker is open (gobreaker error text "circuit breaker is
open") - the handler writes the 503 Service-unavailable JSON and sends a
"Service unavailable" Loki event; these land after whatever the operation
already wrote. -/
def proxyRequest (env : Env) : ProxyResult :=
  if env.parseOk = false then ⟨true, none, [], []⟩
  else if env.breakerOpen then
    ⟨false, none,
      [WriteAction.json 503
        [("error", "Service unavailable"), ("msg", "circuit breaker is open")]],
      ["Service unavailable"]⟩
  else
    let o := wrappedOperation env.upstream
    if o.panicked then ⟨true, none, o.writes, o.events⟩
    else
      match o.err with
      | none => ⟨false, some none, o.writes, o.events⟩
      | some msg =>
        ⟨false, some (some msg),
          o.writes ++
            [WriteAction.json 503 [("error", "Service unavailable"), ("msg", msg)]],
          o.events ++ ["Service unavailable"]⟩

/-- Result of the whole per-request pipeline: final limiter state, whether
the request reached `proxyRequest` (false = aborted by the middleware),
client writes, Loki events, the breaker report, and whether the handler
panicked. -/
structure HandlerResult where
  limiter : TokenBucketLimiter
  proxied : Bool
  writes : List WriteAction
  events : List String
  opReport : Option (Option String)
  panicked : Bool
deriving Repr, DecidableEq

/-- The rate-limit middleware composed with the proxy handler, as
registered in src/main.go lines 62-72 and 172-174. `RateLimterMiddleware`
evaluates `!limiter.Allow() && c.Request.Method != "POST"`: `Allow()` is
always called (always consuming a token when one is available), and the
request is rejected with 429 and aborted only when the token was refused
AND the method is not POST; otherwise `c.Next()` runs `proxyRequest`. -/
def handleRequest (l : TokenBucketLimiter) (elapsed : ℚ) (method : String)
    (env : Env) : HandlerResult :=
  let a := l.Allow elapsed
  if !a.1 && method != "POST" then
    ⟨a.2, false, [WriteAction.json 429 [("error", "Too many requests")]], [],
      none, false⟩
  else
    let p := proxyRequest env
    ⟨a.2, true, p.writes, p.events, p.opReport, p.panicked⟩

/-- Iterates `handleRequest` with fixed elapsed time, method and
environment, keeping only the limiter state (used to model a burst of
identical requests on one route's shared limiter). -/
def handleMany (l : TokenBucketLimiter) (elapsed : ℚ) (method : String)
    (env : Env) : Nat → TokenBucketLimiter
  | 0 => l
  | n + 1 => handleMany (handleRequest l elapsed method env).limiter elapsed method env n

/-- Number of times the source increments the Prometheus counter
`http_requests_total` while serving one inbound request: src/main.go
registers it (lines 135-140) but no code path calls `Inc`/`Add` on it, so
the count is 0 for every request. -/
def promCounterIncrements : Nat := 0

/-- Every header key carries at least one value (true of headers produced
by Go's HTTP client from a received response; `v[0]` in the source assumes
it). -/
def valuesNonempty (hs : List (String × List String)) : Bool :=
  hs.all fun kv => !kv.2.isEmpty

/-- Well-formedness of the upstream behaviour: a received response has no
empty header-value list. -/
def headersOk : UpstreamBehavior → Bool
  | UpstreamBehavior.response _ hs _ => valuesNonempty hs
  | _ => true

/-- A benign environment: parseable target URL, breaker Closed, upstream
answers 200 with no headers and the body copy succeeds. -/
def envOk : Env := ⟨true, false, UpstreamBehavior.response 200 [] true⟩

/-! Helper lemmas shared by the claim theorems. -/

theorem copyHeaders_eq (hs : List (String × List String))
    (h : valuesNonempty hs = true) :
    copyHeaders hs =
      (hs.map fun kv => WriteAction.header kv.1 (kv.2.headD ""), false) := by
  induction hs with
  | nil => rfl
  | cons kv rest ih =>
    obtain ⟨k, vs⟩ := kv
    cases vs with
    | nil => simp [valuesNonempty] at h
    | cons v vt =>
      have h2 : valuesNonempty rest = true := by
        simp only [valuesNonempty, List.all_cons, Bool.and_eq_true] at h
        exact h.2
      simp [copyHeaders, ih h2]

theorem wrappedOperation_no_panic (u : UpstreamBehavior)
    (h : headersOk u = true) : (wrappedOperation u).panicked = false := by
  cases u with
  | newRequestError => rfl
  | transportError => rfl
  | response s hs cOk =>
    simp only [headersOk] at h
    simp [wrappedOperation, copyHeaders_eq hs h]
    cases cOk <;> simp

theorem get_ne_post : (("GET" : String) = "POST") = False := by decide

theorem handleRequest_limiter (l : TokenBucketLimiter) (e : ℚ) (m : String)
    (env : Env) : (handleRequest l e m env).limiter = (l.Allow e).2 := by
  simp only [handleRequest]
  split <;> rfl

theorem handleMany_eq_allowRun (l : TokenBucketLimiter) (e : ℚ) (m : String)
    (env : Env) : ∀ n, handleMany l e m env n = (allowRun l (List.replicate n e)).2 := by
  intro n
  induction n generalizing l with
  | zero => rfl
  | succ k ih =>
    show handleMany (handleRequest l e m env).limiter e m env k
        = (allowRun l (List.replicate (k + 1) e)).2
    rw [handleRequest_limiter, ih (l.Allow e).2]
    rw [List.replicate_succ]
    rfl

theorem Allow_rate (l : TokenBucketLimiter) (e : ℚ) :
    ((l.Allow e).2).refillRatePerSecond = l.refillRatePerSecond := by
  simp only [TokenBucketLimiter.Allow, TokenBucketLimiter.refill]
  split <;> rfl

theorem Allow_inv (l : TokenBucketLimiter) (e : ℚ)
    (hr : 0 ≤ l.refillRatePerSecond) (he : 0 ≤ e) (h : l.Inv) :
    ((l.Allow e).2).Inv := by
  obtain ⟨h0, hc⟩ := h
  have hcap : 0 ≤ l.capacity := h0.trans hc
  have hre : 0 ≤ l.tokens + e * l.refillRatePerSecond :=
    add_nonneg h0 (mul_nonneg he hr)
  have hmin1 : min l.capacity (l.tokens + e * l.refillRatePerSecond) ≤ l.capacity :=
    min_le_left _ _
  have hmin0 : 0 ≤ min l.capacity (l.tokens + e * l.refillRatePerSecond) :=
    le_min hcap hre
  simp only [TokenBucketLimiter.Allow, TokenBucketLimiter.refill,
    TokenBucketLimiter.Inv]
  split
  · constructor
    · next hcond => simp only at hcond ⊢; linarith
    · simp only; linarith
  · exact ⟨hmin0, hmin1⟩

/-- Claim C2: with the source's trip predicate `ConsecutiveFailures > 5`
(failureThreshold 5), five consecutive reported failures leave a fresh
breaker Closed with `consecutiveFailures = 5`, and the sixth consecutive
failure transitions it to Open; the predicate itself rejects 5 and accepts
6 because counts are updated before it is evaluated. -/
theorem breaker_trips_on_sixth_consecutive_failure :
    (failN 5 newCircuitBreaker).state = CBState.Closed
    ∧ (failN 5 newCircuitBreaker).counts.consecutiveFailures = 5
    ∧ (failN 6 newCircuitBreaker).state = CBState.Open
    ∧ ReadyToTrip ⟨5, 0, 5, 0, 5⟩ = false
    ∧ ReadyToTrip ⟨6, 0, 6, 0, 6⟩ = true := by
  decide

/-- Claim C6: with capacity 20 and refill rate 10 per second starting from
a full bucket (the `rate.NewLimiter(10, 20)` of src/main.go line 165),
20 immediate `Allow()` calls return true, the 21st returns false; after one
simulated second, exactly 10 further calls return true and the next one
returns false. -/
theorem rate_limit_determinism :
    (allowRun routeLimiter (List.replicate 21 0 ++ 1 :: List.replicate 10 0)).1
      = List.replicate 20 true ++ false :: List.replicate 10 true ++ [false] := by
  norm_num [allowRun, TokenBucketLimiter.Allow, TokenBucketLimiter.refill,
    routeLimiter, List.replicate]

/-- Claim C7: for every sequence of `Allow()` calls with nonnegative elapsed
times on a limiter with nonnegative refill rate, the invariant
`0 ≤ tokens ≤ capacity` is preserved; since every prefix of a run is itself
a run, the bound holds after every operation. -/
theorem token_bucket_bounds (l : TokenBucketLimiter) (es : List ℚ)
    (hr : 0 ≤ l.refillRatePerSecond) (hes : ∀ e ∈ es, 0 ≤ e) (h : l.Inv) :
    ((allowRun l es).2).Inv := by
  induction es generalizing l with
  | nil => exact h
  | cons e es ih =>
    simp only [allowRun]
    exact ih (l.Allow e).2 (by rw [Allow_rate]; exact hr)
      (fun x hx => hes x (List.mem_cons_of_mem _ hx))
      (Allow_inv l e hr (hes e (List.mem_cons_self _ _)) h)

/-- Witness for C7 at a concrete run on the route limiter. -/
theorem token_bucket_bounds_witness :
    ((allowRun routeLimiter [0, 1, 0]).2).Inv :=
  token_bucket_bounds routeLimiter [0, 1, 0] (by decide) (by decide) (by decide)

/-- Counterexample to C1 as stated: a POST request whose `Allow()` call
returns false (empty bucket, no elapsed time) is NOT answered with 429 -
the middleware condition `!limiter.Allow() && method != "POST"` lets it
through, the breaker is invoked and the request is forwarded. -/
theorem rate_limit_reject_counterexample :
    (((⟨20, 10, 0⟩ : TokenBucketLimiter).Allow 0).1 = false)
    ∧ (handleRequest ⟨20, 10, 0⟩ 0 "POST" envOk).proxied = true
    ∧ (handleRequest ⟨20, 10, 0⟩ 0 "POST" envOk).opReport = some none
    ∧ (handleRequest ⟨20, 10, 0⟩ 0 "POST" envOk).writes ≠
        [WriteAction.json 429 [("error", "Too many requests")]] := by
  refine ⟨?_, ?_, ?_, ?_⟩ <;>
    norm_num [handleRequest, proxyRequest, wrappedOperation, copyHeaders,
      TokenBucketLimiter.Allow, TokenBucketLimiter.refill, envOk]

/-- Claim C1 (amended): for every inbound request whose method is not POST
on a matched route, if the route's limiter `Allow()` returns false the
pipeline responds 429 with body error "Too many requests", aborts, and
neither invokes the circuit breaker nor forwards the request. -/
theorem rate_limited_non_post_rejected (l : TokenBucketLimiter) (e : ℚ)
    (m : String) (env : Env) (hallow : (l.Allow e).1 = false)
    (hm : (m != "POST") = true) :
    handleRequest l e m env =
      ⟨(l.Allow e).2, false,
        [WriteAction.json 429 [("error", "Too many requests")]], [], none,
        false⟩ := by
  simp [handleRequest, hallow, hm]

/-- Witness for the amended C1: a GET on an empty bucket is rejected. -/
theorem rate_limited_non_post_rejected_witness :
    handleRequest ⟨20, 10, 0⟩ 0 "GET" envOk =
      ⟨((⟨20, 10, 0⟩ : TokenBucketLimiter).Allow 0).2, false,
        [WriteAction.json 429 [("error", "Too many requests")]], [], none,
        false⟩ :=
  rate_limited_non_post_rejected ⟨20, 10, 0⟩ 0 "GET" envOk
    (by norm_num [TokenBucketLimiter.Allow, TokenBucketLimiter.refill])
    (by decide)

/-- Claim C3: the closure handed to `cb.Execute` returns `nil` (success)
exactly when an HTTP response was received - whatever its status code,
4xx/5xx included - and its body streamed back without error; the
`client.Do` transport failure and the mid-stream copy failure are the error
returns, and the error value of the closure is exactly what `cb.Execute`
counts (the dispatcher report equals it verbatim). -/
theorem breaker_counts_only_transport_failures (u : UpstreamBehavior)
    (h : headersOk u = true) :
    ((wrappedOperation u).err = none ↔
      ∃ s hs, u = UpstreamBehavior.response s hs true)
    ∧ (u = UpstreamBehavior.transportError →
        (wrappedOperation u).err = some "Error sending request")
    ∧ (∀ s hs, u = UpstreamBehavior.response s hs false →
        (wrappedOperation u).err = some "Error copying response body")
    ∧ (proxyRequest ⟨true, false, u⟩).opReport = some (wrappedOperation u).err := by
  refine ⟨?_, ?_, ?_, ?_⟩
  · cases u with
    | newRequestError => simp [wrappedOperation]
    | transportError => simp [wrappedOperation]
    | response s hs cOk =>
      simp only [headersOk] at h
      cases cOk <;> simp [wrappedOperation, copyHeaders_eq hs h]
  · intro hu; subst hu; rfl
  · intro s hs hu
    subst hu
    simp only [headersOk] at h
    simp [wrappedOperation, copyHeaders_eq hs h]
  · have hp := wrappedOperation_no_panic u h
    simp only [proxyRequest, hp]
    cases herr : (wrappedOperation u).err <;> simp [herr, hp]

/-- Witness for C3: a received 500 response with a well-formed header is a
breaker success. -/
theorem breaker_counts_only_transport_failures_witness :
    (wrappedOperation
        (UpstreamBehavior.response 500 [("Content-Type", ["application/json"])]
          true)).err = none :=
  (breaker_counts_only_transport_failures _ (by decide)).1.mpr
    ⟨500, [("Content-Type", ["application/json"])], rfl⟩

/-- Counterexample to C4 as stated: when the upstream answers 200 but the
body copy fails, the closure returns the copy error to `cb.Execute`, so the
breaker DOES count a failure, and the dispatcher appends the 503
Service-unavailable JSON after the already-sent status and body bytes. -/
theorem copy_failure_counted_counterexample :
    (proxyRequest ⟨true, false, UpstreamBehavior.response 200 [] false⟩).opReport
      = some (some "Error copying response body")
    ∧ (proxyRequest ⟨true, false, UpstreamBehavior.response 200 [] false⟩).writes
      = [WriteAction.status 200, WriteAction.bodyChunk,
          WriteAction.json 503
            [("error", "Service unavailable"),
              ("msg", "Error copying response body")]] :=
  ⟨rfl, rfl⟩

/-- Claim C4 (amended): a failure while streaming the response body back is
logged AND returned as an error from the breaker-wrapped operation, so the
breaker counts it as a failure and the dispatcher appends the 503
Service-unavailable JSON body; no second status write occurs, so the status
code already sent stays the upstream's - the appended JSON cannot change
it. -/
theorem copy_failure_logged_and_counted (s : Nat)
    (hs : List (String × List String)) (h : valuesNonempty hs = true) :
    proxyRequest ⟨true, false, UpstreamBehavior.response s hs false⟩ =
      ⟨false, some (some "Error copying response body"),
        (hs.map fun kv => WriteAction.header kv.1 (kv.2.headD "")) ++
          [WriteAction.status s, WriteAction.bodyChunk,
            WriteAction.json 503
              [("error", "Service unavailable"),
                ("msg", "Error copying response body")]],
        ["Error copying response body", "Service unavailable"]⟩ := by
  simp [proxyRequest, wrappedOperation, copyHeaders_eq hs h]

/-- Witness for the amended C4 at a concrete copy failure. -/
theorem copy_failure_logged_and_counted_witness :
    proxyRequest ⟨true, false, UpstreamBehavior.response 200 [] false⟩ =
      ⟨false, some (some "Error copying response body"),
        [WriteAction.status 200, WriteAction.bodyChunk,
          WriteAction.json 503
            [("error", "Service unavailable"),
              ("msg", "Error copying response body")]],
        ["Error copying response body", "Service unavailable"]⟩ :=
  copy_failure_logged_and_counted 200 [] (by decide)

/-- Claim C5 is the spec's intent, but the code panics instead: on an
unparseable target URL, `proxyRequest` dereferences the nil `proxyUrl` in
the log statement placed before the `err != nil` check, so no 500
Invalid-target-URL JSON is written, no event is sent and the breaker is
never reached - the handler dies with no client write at all (gin's
recovery middleware then produces a bare 500 with an empty body). -/
theorem invalid_target_url_panics (b : Bool) (u : UpstreamBehavior) :
    proxyRequest ⟨false, b, u⟩ = ⟨true, none, [], []⟩ := rfl

/-- Claim C8: the header-copy loop writes each upstream response header key
with only the first element of its value list (`c.Header(k, v[0])`), so
every value after the first is dropped; on a successful proxy these writes
are exactly what precedes the status and body on the client connection. -/
theorem response_headers_first_value_only (s : Nat)
    (hs : List (String × List String)) (h : valuesNonempty hs = true) :
    copyHeaders hs =
      (hs.map fun kv => WriteAction.header kv.1 (kv.2.headD ""), false)
    ∧ (wrappedOperation (UpstreamBehavior.response s hs true)).writes
      = (hs.map fun kv => WriteAction.header kv.1 (kv.2.headD "")) ++
          [WriteAction.status s, WriteAction.bodyChunk] := by
  refine ⟨copyHeaders_eq hs h, ?_⟩
  simp [wrappedOperation, copyHeaders_eq hs h]

/-- Witness for C8: a two-valued Set-Cookie header reaches the client with
only its first value. -/
theorem response_headers_first_value_only_witness :
    (wrappedOperation
        (UpstreamBehavior.response 200 [("Set-Cookie", ["a=1", "b=2"])]
          true)).writes
      = [WriteAction.header "Set-Cookie" "a=1", WriteAction.status 200,
          WriteAction.bodyChunk] :=
  (response_headers_first_value_only 200 [("Set-Cookie", ["a=1", "b=2"])]
    (by decide)).2

/-- Counterexample to C9 as stated: a rate-limited GET (empty bucket)
terminates with zero observability events, not one, and the
`http_requests_total` counter is not incremented once per request - it is
registered but never incremented at all. -/
theorem one_event_per_request_counterexample :
    ¬((handleRequest ⟨20, 10, 0⟩ 0 "GET" envOk).events.length = 1)
    ∧ ¬(promCounterIncrements = 1) := by
  constructor
  · norm_num [handleRequest, TokenBucketLimiter.Allow,
      TokenBucketLimiter.refill, envOk, get_ne_post]
  · norm_num [promCounterIncrements]

/-- Claim C9 (amended): the `http_requests_total` counter is registered but
never incremented (0 increments for every request), and the number of Loki
events per request depends on the terminal outcome: 0 for a rate-limited
rejection and for the invalid-target-URL panic, 1 for a successful proxy
and for a breaker-open rejection, 2 for a transport failure and for a
body-copy failure (the closure's event plus the dispatcher's Service
unavailable event). -/
theorem observability_events_by_outcome :
    promCounterIncrements = 0
    ∧ (∀ env : Env, (handleRequest ⟨20, 10, 0⟩ 0 "GET" env).events = [])
    ∧ (∀ s : Nat, ∀ cOk : Bool,
        (handleRequest routeLimiter 0 "GET"
            ⟨true, false, UpstreamBehavior.response s [] cOk⟩).events.length
          = if cOk then 1 else 2)
    ∧ (handleRequest routeLimiter 0 "GET"
        ⟨true, false, UpstreamBehavior.transportError⟩).events
      = ["Error sending request", "Service unavailable"]
    ∧ (∀ u : UpstreamBehavior,
        (handleRequest routeLimiter 0 "GET" ⟨true, true, u⟩).events
          = ["Service unavailable"])
    ∧ (∀ b : Bool, ∀ u : UpstreamBehavior,
        (handleRequest routeLimiter 0 "GET" ⟨false, b, u⟩).events = []) := by
  refine ⟨rfl, ?_, ?_, ?_, ?_, ?_⟩
  · intro env
    norm_num [handleRequest, TokenBucketLimiter.Allow,
      TokenBucketLimiter.refill, get_ne_post]
  · intro s cOk
    cases cOk <;>
      norm_num [handleRequest, proxyRequest, wrappedOperation, copyHeaders,
        TokenBucketLimiter.Allow, TokenBucketLimiter.refill, routeLimiter,
        get_ne_post]
  · norm_num [handleRequest, proxyRequest, wrappedOperation,
      TokenBucketLimiter.Allow, TokenBucketLimiter.refill, routeLimiter,
      get_ne_post]
  · intro u
    norm_num [handleRequest, proxyRequest,
      TokenBucketLimiter.Allow, TokenBucketLimiter.refill, routeLimiter,
      get_ne_post]
  · intro b u
    norm_num [handleRequest, proxyRequest,
      TokenBucketLimiter.Allow, TokenBucketLimiter.refill, routeLimiter,
      get_ne_post]

/-- Claim C10: the middleware calls `Allow()` on every request - the
limiter is updated identically whatever the method, consuming a token when
one is available - and a POST is never rejected by it; hence a burst of 20
POSTs on the route's full shared bucket drains it so that the next GET is
rejected, while the same GET on the untouched bucket is forwarded. -/
theorem post_exemption_drains_shared_bucket :
    (∀ l : TokenBucketLimiter, ∀ e : ℚ, ∀ m : String, ∀ env : Env,
        (handleRequest l e m env).limiter = (l.Allow e).2)
    ∧ (∀ l : TokenBucketLimiter, ∀ e : ℚ, ∀ env : Env,
        (handleRequest l e "POST" env).proxied = true)
    ∧ (handleRequest (handleMany routeLimiter 0 "POST" envOk 20) 0 "GET"
        envOk).proxied = false
    ∧ (handleRequest routeLimiter 0 "GET" envOk).proxied = true := by
  refine ⟨?_, ?_, ?_, ?_⟩
  · exact handleRequest_limiter
  · intro l e env
    simp [handleRequest]
  · rw [handleMany_eq_allowRun]
    norm_num [allowRun, List.replicate, handleRequest, proxyRequest,
      wrappedOperation, copyHeaders, TokenBucketLimiter.Allow,
      TokenBucketLimiter.refill, routeLimiter, envOk, get_ne_post]
  · norm_num [handleRequest, proxyRequest, wrappedOperation, copyHeaders,
      TokenBucketLimiter.Allow, TokenBucketLimiter.refill, routeLimiter,
      envOk, get_ne_post]

end GoGateway
